import Mathlib

/-!
Shallow embedding of `photogrammetry_importer/types/camera.py` (class `Camera`).

Modelling conventions:
* Python floats are modelled by exact rationals (`ℚ`).  All the concrete inputs
  appearing in the theorems below are small rationals, where IEEE double
  arithmetic on the source side is exact as well (apart from the tolerance
  constants `1e-8`/`1e-5`/`1e-9`, which are exact here and rounded in IEEE;
  no theorem below sits on that rounding edge).
* `math.sqrt` / the square root inside `np.linalg.norm` is a real-valued
  operation with no exact rational counterpart, so the functions that call it
  take an explicit `sqrt : ℚ → ℚ` parameter.  Theorems about code paths that
  actually evaluate a square root assume `∀ x, sqrt (x * x) = |x|`, which the
  computable `Rat.sqrt` of Mathlib satisfies (`Rat.sqrt_eq`); code paths that
  never call `sqrt` are proved for every `sqrt`.  Likewise `math.atan` is an
  explicit parameter of `get_field_of_view`.
* In `ℚ`, division by zero yields `0`, while the source's numpy float
  divisions by zero yield `inf` (with a warning, never an exception).  `inf`
  has no rational counterpart, so `get_field_of_view` takes float division as
  an explicit parameter `fdiv`, pinned down (equal to rational division) only
  at nonzero denominators; the depth pipeline's array divisions only happen
  after the source has asserted `fx > 0`, and no theorem below is stated at a
  degenerate `fy = 0`.
* Python `assert` failures and raised exceptions are modelled by
  `Except String` / `Option` results; the error strings name the Python
  exception.  `set_calibration` mutates before its assert, so it returns the
  mutated state together with a success flag.
* The filesystem (`os.path.isfile`) is an explicit parameter
  `isfile : String → Bool`; `os.path.join` / `os.path.basename` are modelled
  for POSIX paths.
-/

deriving instance DecidableEq for Except

/-- A 3-vector of rationals (numpy shape (3,) float arrays). -/
structure Vec3 where
  x : ℚ
  y : ℚ
  z : ℚ
  deriving DecidableEq, Repr

/-- A 4-vector of rationals (homogeneous coordinates / quaternions `[w,x,y,z]`). -/
structure Vec4 where
  a0 : ℚ
  a1 : ℚ
  a2 : ℚ
  a3 : ℚ
  deriving DecidableEq, Repr

/-- A 3x3 matrix of rationals, entry `mij` = row `i`, column `j`. -/
structure Mat3 where
  m00 : ℚ
  m01 : ℚ
  m02 : ℚ
  m10 : ℚ
  m11 : ℚ
  m12 : ℚ
  m20 : ℚ
  m21 : ℚ
  m22 : ℚ
  deriving DecidableEq, Repr

/-- A 4x4 matrix of rationals. -/
structure Mat4 where
  n00 : ℚ
  n01 : ℚ
  n02 : ℚ
  n03 : ℚ
  n10 : ℚ
  n11 : ℚ
  n12 : ℚ
  n13 : ℚ
  n20 : ℚ
  n21 : ℚ
  n22 : ℚ
  n23 : ℚ
  n30 : ℚ
  n31 : ℚ
  n32 : ℚ
  n33 : ℚ
  deriving DecidableEq, Repr

/-- Componentwise negation of a 3-vector. -/
def vec3Neg (v : Vec3) : Vec3 := ⟨-v.x, -v.y, -v.z⟩

/-- Model of `np.dot` of a 3x3 matrix and a 3-vector. -/
def mat3MulVec (m : Mat3) (v : Vec3) : Vec3 :=
  ⟨m.m00 * v.x + m.m01 * v.y + m.m02 * v.z,
   m.m10 * v.x + m.m11 * v.y + m.m12 * v.z,
   m.m20 * v.x + m.m21 * v.y + m.m22 * v.z⟩

/-- Model of `numpy.transpose` of a 3x3 matrix. -/
def mat3Transpose (m : Mat3) : Mat3 :=
  ⟨m.m00, m.m10, m.m20, m.m01, m.m11, m.m21, m.m02, m.m12, m.m22⟩

/-- The 3x3 matrix product. -/
def mat3Mul (a b : Mat3) : Mat3 :=
  ⟨a.m00 * b.m00 + a.m01 * b.m10 + a.m02 * b.m20,
   a.m00 * b.m01 + a.m01 * b.m11 + a.m02 * b.m21,
   a.m00 * b.m02 + a.m01 * b.m12 + a.m02 * b.m22,
   a.m10 * b.m00 + a.m11 * b.m10 + a.m12 * b.m20,
   a.m10 * b.m01 + a.m11 * b.m11 + a.m12 * b.m21,
   a.m10 * b.m02 + a.m11 * b.m12 + a.m12 * b.m22,
   a.m20 * b.m00 + a.m21 * b.m10 + a.m22 * b.m20,
   a.m20 * b.m01 + a.m21 * b.m11 + a.m22 * b.m21,
   a.m20 * b.m02 + a.m21 * b.m12 + a.m22 * b.m22⟩

/-- The 3x3 identity matrix. -/
def mat3Id : Mat3 := ⟨1, 0, 0, 0, 1, 0, 0, 0, 1⟩

/-- The 3x3 zero matrix (`np.zeros((3,3))`). -/
def mat3Zero : Mat3 := ⟨0, 0, 0, 0, 0, 0, 0, 0, 0⟩

/-- Model of `np.linalg.det` of a 3x3 matrix (exact cofactor expansion). -/
def det3 (m : Mat3) : ℚ :=
  m.m00 * (m.m11 * m.m22 - m.m12 * m.m21)
    - m.m01 * (m.m10 * m.m22 - m.m12 * m.m20)
    + m.m02 * (m.m10 * m.m21 - m.m11 * m.m20)

/-- Model of `np.dot` of a 4x4 matrix and a homogeneous 4-vector. -/
def mat4MulVec (m : Mat4) (v : Vec4) : Vec4 :=
  ⟨m.n00 * v.a0 + m.n01 * v.a1 + m.n02 * v.a2 + m.n03 * v.a3,
   m.n10 * v.a0 + m.n11 * v.a1 + m.n12 * v.a2 + m.n13 * v.a3,
   m.n20 * v.a0 + m.n21 * v.a1 + m.n22 * v.a2 + m.n23 * v.a3,
   m.n30 * v.a0 + m.n31 * v.a1 + m.n32 * v.a2 + m.n33 * v.a3⟩

/-- Drop the homogeneous coordinate (`np.delete(world_coords_hom, 3, 1)`). -/
def vec4DropLast (v : Vec4) : Vec3 := ⟨v.a0, v.a1, v.a2⟩

/-- Model of `np.isclose(a, b)` with the default tolerances
`rtol = 1e-5`, `atol = 1e-8`: true iff `|a - b| <= atol + rtol * |b|`. -/
def npIsClose (a b : ℚ) : Bool :=
  |a - b| ≤ 1 / 100000000 + (1 / 100000) * |b|

/-- Model of `os.path.basename` for POSIX paths: the part after the last slash
(computed on the character list so that it evaluates inside the kernel). -/
def osPathBasename (p : String) : String :=
  ⟨(p.data.reverse.takeWhile (fun c => c ≠ '/')).reverse⟩

/-- Model of `os.path.join` for two POSIX path components: if the second is absolute
it wins; otherwise it is appended, inserting a slash unless the first part
is empty or already ends with one. -/
def osPathJoin (a b : String) : String :=
  if b.data.head? = some '/' then b
  else if a.data = [] then b
  else if a.data.getLast? = some '/' then ⟨a.data ++ b.data⟩
  else ⟨a.data ++ '/' :: b.data⟩

/-- Model of `Camera.IMAGE_FP_TYPE_NAME`. -/
def IMAGE_FP_TYPE_NAME : String := "NAME"

/-- Model of `Camera.IMAGE_FP_TYPE_RELATIVE`. -/
def IMAGE_FP_TYPE_RELATIVE : String := "RELATIVE"

/-- Model of `Camera.IMAGE_FP_TYPE_ABSOLUTE`. -/
def IMAGE_FP_TYPE_ABSOLUTE : String := "ABSOLUTE"

/-- Model of `Camera.DEPTH_MAP_WRT_UNIT_VECTORS`. -/
def DEPTH_MAP_WRT_UNIT_VECTORS : String := "DEPTH_MAP_WRT_UNIT_VECTORS"

/-- Model of `Camera.DEPTH_MAP_WRT_CANONICAL_VECTORS`. -/
def DEPTH_MAP_WRT_CANONICAL_VECTORS : String := "DEPTH_MAP_WRT_CANONICAL_VECTORS"

/-- A decoded depth map: a 2D float array as a list of rows. -/
abbrev DepthMap : Type := List (List ℚ)

/-- The state of a `Camera` instance, one field per Python attribute.
`_radial_distortion` does not exist on a fresh Python object (it first
appears inside `set_calibration`); it is modelled as an `Option` that is
`none` until then.  `depth_map_callback` is the externally supplied decoder. -/
structure Camera where
  _center : Vec3
  _translation_vec : Vec3
  normal : Vec3
  color : Vec3
  _quaternion : Vec4
  _rotation_mat : Mat3
  _calibration_mat : Mat3
  _radial_distortion : Option (List ℚ)
  image_fp_type : Option String
  image_dp : Option String
  _relative_fp : Option String
  _absolute_fp : Option String
  _undistorted_relative_fp : Option String
  _undistorted_absolute_fp : Option String
  width : Option ℕ
  height : Option ℕ
  panoramic_type : Option String
  depth_map_fp : Option String
  depth_map_callback : Option (String → DepthMap)
  depth_map_semantic : Option String
  id : Option ℕ

/-- Model of `Camera.__init__`. -/
def initCamera : Camera where
  _center := ⟨0, 0, 0⟩
  _translation_vec := ⟨0, 0, 0⟩
  normal := ⟨0, 0, 0⟩
  color := ⟨255, 255, 255⟩
  _quaternion := ⟨0, 0, 0, 0⟩
  _rotation_mat := mat3Zero
  _calibration_mat := mat3Zero
  _radial_distortion := none
  image_fp_type := none
  image_dp := none
  _relative_fp := none
  _absolute_fp := none
  _undistorted_relative_fp := none
  _undistorted_absolute_fp := none
  width := none
  height := none
  panoramic_type := none
  depth_map_fp := none
  depth_map_callback := none
  depth_map_semantic := none
  id := none

/-- Model of `Camera.set_relative_fp`. -/
def set_relative_fp (cam : Camera) (relative_fp : String) (ifp_type : String) : Camera :=
  { cam with _relative_fp := some relative_fp, image_fp_type := some ifp_type }

/-- Model of `Camera.set_absolute_fp`. -/
def set_absolute_fp (cam : Camera) (absolute_fp : String) : Camera :=
  { cam with _absolute_fp := some absolute_fp }

/-- Model of `Camera._get_relative_fp(relative_fp, absolute_fp)`: dispatch on
`image_fp_type`; a failing `assert` is an error. -/
def getRelativeFpAux (cam : Camera) (relative_fp absolute_fp : Option String) :
    Except String String :=
  if cam.image_fp_type = some IMAGE_FP_TYPE_NAME then
    match relative_fp with
    | none => .error "AssertionError: relative_fp is None"
    | some r => .ok (osPathBasename r)
  else if cam.image_fp_type = some IMAGE_FP_TYPE_RELATIVE then
    match relative_fp with
    | none => .error "AssertionError: relative_fp is None"
    | some r => .ok r
  else if cam.image_fp_type = some IMAGE_FP_TYPE_ABSOLUTE then
    match absolute_fp with
    | none => .error "AssertionError: absolute_fp is None"
    | some a => .ok a
  else .error "AssertionError: unknown image_fp_type"

/-- Model of `Camera.get_relative_fp`. -/
def get_relative_fp (cam : Camera) : Except String String :=
  getRelativeFpAux cam cam._relative_fp cam._absolute_fp

/-- Model of `Camera.get_undistorted_relative_fp`. -/
def get_undistorted_relative_fp (cam : Camera) : Except String String :=
  getRelativeFpAux cam cam._undistorted_relative_fp cam._undistorted_absolute_fp

/-- Model of `Camera._get_absolute_fp(relative_fp, absolute_fp)`. -/
def getAbsoluteFpAux (cam : Camera) (relative_fp absolute_fp : Option String) :
    Except String String :=
  if cam.image_fp_type = some IMAGE_FP_TYPE_NAME then
    match cam.image_dp, relative_fp with
    | some dp, some r => .ok (osPathJoin dp (osPathBasename r))
    | none, _ => .error "AssertionError: image_dp is None"
    | _, none => .error "AssertionError: relative_fp is None"
  else if cam.image_fp_type = some IMAGE_FP_TYPE_RELATIVE then
    match cam.image_dp, relative_fp with
    | some dp, some r => .ok (osPathJoin dp r)
    | none, _ => .error "AssertionError: image_dp is None"
    | _, none => .error "AssertionError: relative_fp is None"
  else if cam.image_fp_type = some IMAGE_FP_TYPE_ABSOLUTE then
    match absolute_fp with
    | none => .error "AssertionError: absolute_fp is None"
    | some a => .ok a
  else .error "AssertionError: unknown image_fp_type"

/-- Model of `Camera.get_absolute_fp`. -/
def get_absolute_fp (cam : Camera) : Except String String :=
  getAbsoluteFpAux cam cam._relative_fp cam._absolute_fp

/-- Model of `Camera.get_undistored_absolute_fp` (name kept from the source):
`assert False` when the type is ABSOLUTE, otherwise resolve the
undistorted fields like `_get_absolute_fp`. -/
def get_undistored_absolute_fp (cam : Camera) : Except String String :=
  if cam.image_fp_type = some IMAGE_FP_TYPE_ABSOLUTE then
    .error "AssertionError: not supported for undistorted images"
  else
    getAbsoluteFpAux cam cam._undistorted_relative_fp cam._undistorted_absolute_fp

/-- Model of `Camera.set_calibration`: both assignments happen before the `assert`,
so the returned state carries the new calibration matrix and distortion
even when the assert fails; the Bool is `false` iff the assert raised. -/
def set_calibration (cam : Camera) (calibration_mat : Mat3)
    (radial_distortion : Option (List ℚ)) : Camera × Bool :=
  ({ cam with
      _calibration_mat := calibration_mat,
      _radial_distortion := radial_distortion },
   radial_distortion ≠ none)

/-- Model of `Camera.has_focal_length`: `K[0][0] > 0`. -/
def has_focal_length (cam : Camera) : Bool :=
  0 < cam._calibration_mat.m00

/-- Model of `Camera.get_focal_length`: `K[0][0]`. -/
def get_focal_length (cam : Camera) : ℚ :=
  cam._calibration_mat.m00

/-- Model of `Camera.get_field_of_view`: assert width/height are set, then
`atan(max(width, height) / (focal_length * 2)) * 2`.  The division is by a
`numpy.float64` scalar, which never raises — a zero focal length yields
`inf`, so the call returns `2 * atan(inf) = pi` rather than failing.  Since
`inf` has no rational counterpart, float division is the explicit parameter
`fdiv` (agreeing with rational division whenever the denominator is
nonzero), and `atan` models `math.atan`. -/
def get_field_of_view (atan : ℚ → ℚ) (fdiv : ℚ → ℚ → ℚ) (cam : Camera) :
    Except String ℚ :=
  match cam.width, cam.height with
  | some w, some h =>
      .ok (atan (fdiv ((max w h : ℕ) : ℚ) (get_focal_length cam * 2)) * 2)
  | _, _ => .error "AssertionError: width or height is None"

/-- Model of `Camera.is_principal_point_initialized`: both `cx` and `cy` not
`np.isclose` to zero. -/
def is_principal_point_initialized (cam : Camera) : Bool :=
  !npIsClose cam._calibration_mat.m02 0 && !npIsClose cam._calibration_mat.m12 0

/-- Model of `Camera.has_intrinsics`. -/
def has_intrinsics (cam : Camera) : Bool :=
  has_focal_length cam && is_principal_point_initialized cam

/-- Model of `Camera.get_calibration_mat`: `check_calibration_mat` asserts
`has_focal_length and is_principal_point_initialized`, then the matrix is
returned. -/
def get_calibration_mat (cam : Camera) : Except String Mat3 :=
  if has_focal_length cam && is_principal_point_initialized cam then
    .ok cam._calibration_mat
  else .error "AssertionError: check_calibration_mat"

/-- Model of `Camera.get_principal_point`: `(K[0][2], K[1][2])` of the checked
calibration matrix. -/
def get_principal_point (cam : Camera) : Except String (ℚ × ℚ) :=
  match get_calibration_mat cam with
  | .error e => .error e
  | .ok k => .ok (k.m02, k.m12)

/-- Camera used in witnesses: ABSOLUTE addressing with a stored undistorted
absolute path. -/
def camAbsW : Camera :=
  { initCamera with
      image_fp_type := some IMAGE_FP_TYPE_ABSOLUTE,
      _absolute_fp := some "/x/y.png",
      _undistorted_absolute_fp := some "/x/y_undist.png" }

/-- Camera used in witnesses: NAME addressing with an image directory and an
undistorted relative path containing a subdirectory. -/
def camNameW : Camera :=
  { initCamera with
      image_fp_type := some IMAGE_FP_TYPE_NAME,
      image_dp := some "/data",
      _undistorted_relative_fp := some "sub/img.png" }

/-- Camera used in witnesses: RELATIVE addressing. -/
def camRelW : Camera :=
  { initCamera with
      image_fp_type := some IMAGE_FP_TYPE_RELATIVE,
      image_dp := some "/data",
      _undistorted_relative_fp := some "sub/img.png" }

/-- C7: `get_undistored_absolute_fp` fails with the unsupported-operation
assert whenever the addressing mode is ABSOLUTE, and under NAME (resp.
RELATIVE) it resolves the undistorted fields through the image directory
exactly like the ordinary absolute-path query: `join(image_dp, basename(r))`
(resp. `join(image_dp, r)`). -/
theorem thm_c7 :
    (∀ cam : Camera, cam.image_fp_type = some IMAGE_FP_TYPE_ABSOLUTE →
      get_undistored_absolute_fp cam =
        .error "AssertionError: not supported for undistorted images") ∧
    (∀ (cam : Camera) (dp r : String), cam.image_fp_type = some IMAGE_FP_TYPE_NAME →
      cam.image_dp = some dp → cam._undistorted_relative_fp = some r →
      get_undistored_absolute_fp cam = .ok (osPathJoin dp (osPathBasename r))) ∧
    (∀ (cam : Camera) (dp r : String), cam.image_fp_type = some IMAGE_FP_TYPE_RELATIVE →
      cam.image_dp = some dp → cam._undistorted_relative_fp = some r →
      get_undistored_absolute_fp cam = .ok (osPathJoin dp r)) := by
  refine ⟨?_, ?_, ?_⟩
  · intro cam ht
    simp [get_undistored_absolute_fp, ht]
  · intro cam dp r ht hdp hr
    simp [get_undistored_absolute_fp, getAbsoluteFpAux, ht, hdp, hr,
      IMAGE_FP_TYPE_NAME, IMAGE_FP_TYPE_ABSOLUTE]
  · intro cam dp r ht hdp hr
    simp [get_undistored_absolute_fp, getAbsoluteFpAux, ht, hdp, hr,
      IMAGE_FP_TYPE_RELATIVE, IMAGE_FP_TYPE_ABSOLUTE, IMAGE_FP_TYPE_NAME]

/-- C7 witness: the three cases of `thm_c7` at concrete cameras. -/
theorem thm_c7_witness :
    (camAbsW.image_fp_type = some IMAGE_FP_TYPE_ABSOLUTE ∧
      get_undistored_absolute_fp camAbsW =
        .error "AssertionError: not supported for undistorted images") ∧
    get_undistored_absolute_fp camNameW = .ok "/data/img.png" ∧
    get_undistored_absolute_fp camRelW = .ok "/data/sub/img.png" := by
  refine ⟨⟨rfl, thm_c7.1 camAbsW rfl⟩, ?_, ?_⟩
  · rw [thm_c7.2.1 camNameW "/data" "sub/img.png" rfl rfl rfl]
    decide
  · rw [thm_c7.2.2 camRelW "/data" "sub/img.png" rfl rfl rfl]
    decide

/-- C10: under ABSOLUTE mode with a stored undistorted absolute path `p`,
`get_undistorted_relative_fp` succeeds and returns `p` verbatim (an absolute
path), while `get_undistored_absolute_fp` fails under the same mode. -/
theorem thm_c10 :
    ∀ (cam : Camera) (p : String), cam.image_fp_type = some IMAGE_FP_TYPE_ABSOLUTE →
      cam._undistorted_absolute_fp = some p →
      get_undistorted_relative_fp cam = .ok p ∧
      get_undistored_absolute_fp cam =
        .error "AssertionError: not supported for undistorted images" := by
  intro cam p ht hp
  constructor
  · simp [get_undistorted_relative_fp, getRelativeFpAux, ht, hp,
      IMAGE_FP_TYPE_ABSOLUTE, IMAGE_FP_TYPE_NAME, IMAGE_FP_TYPE_RELATIVE]
  · simp [get_undistored_absolute_fp, ht]

/-- C10 witness: `thm_c10` at a concrete ABSOLUTE-mode camera. -/
theorem thm_c10_witness :
    camAbsW.image_fp_type = some IMAGE_FP_TYPE_ABSOLUTE ∧
    camAbsW._undistorted_absolute_fp = some "/x/y_undist.png" ∧
    get_undistorted_relative_fp camAbsW = .ok "/x/y_undist.png" ∧
    get_undistored_absolute_fp camAbsW =
      .error "AssertionError: not supported for undistorted images" := by
  have h := thm_c10 camAbsW "/x/y_undist.png" rfl rfl
  exact ⟨rfl, rfl, h.1, h.2⟩

/-- Camera with width/height set and a negative (hence invalid) focal
length: `has_focal_length` is false but `get_field_of_view` still succeeds. -/
def camNegFocal : Camera :=
  { initCamera with
      width := some 1000,
      height := some 500,
      _calibration_mat := ⟨-500, 0, 0, 0, -500, 0, 0, 0, 1⟩ }

/-- Camera with width/height set and a valid focal length 500. -/
def camFov : Camera :=
  { initCamera with
      width := some 1000,
      height := some 500,
      _calibration_mat := ⟨500, 0, 0, 0, 500, 0, 0, 0, 1⟩ }

/-- C4 counterexample: the claim says `get_field_of_view` fails whenever the
focal length is not valid, but the source only asserts width/height; with
width/height set and focal length `-500` (so `has_focal_length` is false) the
call succeeds and returns `atan(-1) * 2` (here `-2` for the identity model
of `atan` and exact rational division for `fdiv`). -/
theorem thm_c4_counterexample :
    has_focal_length camNegFocal = false ∧
    camNegFocal.width = some 1000 ∧ camNegFocal.height = some 500 ∧
    get_field_of_view (fun q => q) (fun a b => a / b) camNegFocal = .ok (-2) := by
  refine ⟨?_, rfl, rfl, ?_⟩
  · simp [has_focal_length, camNegFocal, initCamera]
  · simp [get_field_of_view, camNegFocal, initCamera, get_focal_length]
    norm_num

/-- C4 (amended): `get_field_of_view` fails with the precondition assert
exactly when width or height is unset, and succeeds whenever both are set —
focal-length validity (`> 0`) is never checked, and the float division by
`2 * focal_length` never raises.  With a nonzero focal length the result is
`2 * atan(max(width, height) / (2 * focal_length))`. -/
theorem thm_c4 :
    (∀ (atan : ℚ → ℚ) (fdiv : ℚ → ℚ → ℚ) (cam : Camera) (w h : ℕ),
      cam.width = some w → cam.height = some h →
      get_field_of_view atan fdiv cam =
        .ok (atan (fdiv ((max w h : ℕ) : ℚ) (get_focal_length cam * 2)) * 2)) ∧
    (∀ (atan : ℚ → ℚ) (fdiv : ℚ → ℚ → ℚ) (cam : Camera) (w h : ℕ),
      (∀ a b : ℚ, b ≠ 0 → fdiv a b = a / b) →
      cam.width = some w → cam.height = some h → get_focal_length cam ≠ 0 →
      get_field_of_view atan fdiv cam =
        .ok (atan (((max w h : ℕ) : ℚ) / (get_focal_length cam * 2)) * 2)) ∧
    (∀ (atan : ℚ → ℚ) (fdiv : ℚ → ℚ → ℚ) (cam : Camera),
      cam.width = none ∨ cam.height = none →
      get_field_of_view atan fdiv cam =
        .error "AssertionError: width or height is None") := by
  refine ⟨?_, ?_, ?_⟩
  · intro atan fdiv cam w h hw hh
    simp [get_field_of_view, hw, hh]
  · intro atan fdiv cam w h hfdiv hw hh hf
    simp only [get_field_of_view, hw, hh]
    rw [hfdiv _ _ (mul_ne_zero hf two_ne_zero)]
  · intro atan fdiv cam h
    rcases h with h | h <;> simp [get_field_of_view, h]

/-- C4 witness: `thm_c4` at concrete cameras (valid focal length 500 with
image 1000 x 500 gives `atan 1 * 2 = 2` under the identity `atan` and exact
rational division; a fresh camera has no dimensions). -/
theorem thm_c4_witness :
    get_focal_length camFov ≠ 0 ∧
    get_field_of_view (fun q => q) (fun a b => a / b) camFov = .ok 2 ∧
    get_field_of_view (fun q => q) (fun a b => a / b) initCamera =
      .error "AssertionError: width or height is None" := by
  have hf : get_focal_length camFov ≠ 0 := by
    simp [get_focal_length, camFov, initCamera]
  refine ⟨hf, ?_, ?_⟩
  · rw [thm_c4.2.1 (fun q => q) (fun a b => a / b) camFov 1000 500
      (fun a b _ => rfl) rfl rfl hf]
    simp [get_focal_length, camFov, initCamera]
    norm_num
  · exact thm_c4.2.2 (fun q => q) (fun a b => a / b) initCamera (Or.inl rfl)

/-- C9: `set_calibration` stores the new calibration matrix and the
distortion descriptor before the assert on the distortion, so a call with a
missing distortion fails (flag `false`) while the returned state already
carries the new calibration matrix. -/
theorem thm_c9 :
    ∀ (cam : Camera) (k : Mat3),
      (set_calibration cam k none).2 = false ∧
      (set_calibration cam k none).1._calibration_mat = k ∧
      (set_calibration cam k none).1._radial_distortion = none := by
  intro cam k
  refine ⟨by simp [set_calibration], rfl, rfl⟩

/-- Model of `Camera.is_rotation_mat_valid`: `np.isclose(det, 1) or np.isclose(det, -1)`. -/
def is_rotation_mat_valid (some_mat : Mat3) : Bool :=
  npIsClose (det3 some_mat) 1 || npIsClose (det3 some_mat) (-1)

/-- Model of `Camera.quaternion_to_rotation_matrix(q)` (PBA's `SetQuaternionRotation`):
normalize by the euclidean norm (falling back to the identity quaternion
when the norm is not positive), then build the 3x3 matrix.  `sqrt` models
`math.sqrt`. -/
def quaternion_to_rotation_matrix (sqrt : ℚ → ℚ) (q : Vec4) : Mat3 :=
  let qq := sqrt (q.a0 * q.a0 + q.a1 * q.a1 + q.a2 * q.a2 + q.a3 * q.a3)
  let qw := if 0 < qq then q.a0 / qq else 1
  let qx := if 0 < qq then q.a1 / qq else 0
  let qy := if 0 < qq then q.a2 / qq else 0
  let qz := if 0 < qq then q.a3 / qq else 0
  ⟨qw * qw + qx * qx - qz * qz - qy * qy,
   2 * qx * qy - 2 * qz * qw,
   2 * qy * qw + 2 * qz * qx,
   2 * qx * qy + 2 * qw * qz,
   qy * qy + qw * qw - qz * qz - qx * qx,
   2 * qz * qy - 2 * qx * qw,
   2 * qx * qz - 2 * qy * qw,
   2 * qy * qz + 2 * qw * qx,
   qz * qz + qw * qw - qy * qy - qx * qx⟩

/-- Model of `Camera.rotation_matrix_to_quaternion(m)` (PBA's `GetQuaternionRotation`):
Shepperd-style branch selection on `1 + trace` and the dominant diagonal
entry.  `sqrt` models `math.sqrt`. -/
def rotation_matrix_to_quaternion (sqrt : ℚ → ℚ) (m : Mat3) : Vec4 :=
  let t := 1 + m.m00 + m.m11 + m.m22
  if 1 / 1000000000 < t then
    let q0 := sqrt t / 2
    ⟨q0, (m.m21 - m.m12) / (4 * q0), (m.m02 - m.m20) / (4 * q0),
      (m.m10 - m.m01) / (4 * q0)⟩
  else if m.m11 < m.m00 ∧ m.m22 < m.m00 then
    let s := 2 * sqrt (1 + m.m00 - m.m11 - m.m22)
    ⟨(m.m12 - m.m21) / s, (1 / 4) * s, (m.m01 + m.m10) / s, (m.m02 + m.m20) / s⟩
  else if m.m22 < m.m11 then
    let s := 2 * sqrt (1 + m.m11 - m.m00 - m.m22)
    ⟨(m.m02 - m.m20) / s, (m.m01 + m.m10) / s, (1 / 4) * s, (m.m12 + m.m21) / s⟩
  else
    let s := 2 * sqrt (1 + m.m22 - m.m00 - m.m11)
    ⟨(m.m01 - m.m10) / s, (m.m02 + m.m20) / s, (m.m12 + m.m21) / s, (1 / 4) * s⟩

/-- Model of `Camera.set_quaternion`: store `q` and recompute the rotation matrix. -/
def set_quaternion (sqrt : ℚ → ℚ) (cam : Camera) (quaternion : Vec4) : Camera :=
  { cam with
      _quaternion := quaternion,
      _rotation_mat := quaternion_to_rotation_matrix sqrt quaternion }

/-- Model of `Camera.set_rotation_mat` with `check_rotation`: assert validity, store
the matrix and recompute the quaternion.  `none` models the failed assert
(the object is unchanged in that case, since the assert precedes both
assignments). -/
def set_rotation_mat (sqrt : ℚ → ℚ) (cam : Camera) (rotation_mat : Mat3)
    (check_rotation : Bool) : Option Camera :=
  if check_rotation && !is_rotation_mat_valid rotation_mat then none
  else some
    { cam with
        _rotation_mat := rotation_mat,
        _quaternion := rotation_matrix_to_quaternion sqrt rotation_mat }

/-- Model of `Camera.set_camera_center_after_rotation`: assert the current rotation is
valid, store the center and recompute `t = -R C`. -/
def set_camera_center_after_rotation (cam : Camera) (center : Vec3)
    (check_rotation : Bool) : Option Camera :=
  if check_rotation && !is_rotation_mat_valid cam._rotation_mat then none
  else some
    { cam with
        _center := center,
        _translation_vec := vec3Neg (mat3MulVec cam._rotation_mat center) }

/-- Model of `Camera.set_camera_translation_vector_after_rotation`: assert the current
rotation is valid, store the translation and recompute `C = -R^T t`. -/
def set_camera_translation_vector_after_rotation (cam : Camera)
    (translation_vector : Vec3) (check_rotation : Bool) : Option Camera :=
  if check_rotation && !is_rotation_mat_valid cam._rotation_mat then none
  else some
    { cam with
        _translation_vec := translation_vector,
        _center := vec3Neg (mat3MulVec (mat3Transpose cam._rotation_mat)
          translation_vector) }

/-- Model of `Camera.get_4x4_cam_to_world_mat`: `[[R^T, C], [0, 1]]`. -/
def get_4x4_cam_to_world_mat (cam : Camera) : Mat4 :=
  ⟨cam._rotation_mat.m00, cam._rotation_mat.m10, cam._rotation_mat.m20, cam._center.x,
   cam._rotation_mat.m01, cam._rotation_mat.m11, cam._rotation_mat.m21, cam._center.y,
   cam._rotation_mat.m02, cam._rotation_mat.m12, cam._rotation_mat.m22, cam._center.z,
   0, 0, 0, 1⟩

/-- One call of the three pose mutators of claim C1, each with its
`check_rotation` argument left at the Python default `True`. -/
inductive PoseOp where
  | setRot (rotation_mat : Mat3)
  | setCenter (center : Vec3)
  | setTrans (translation_vector : Vec3)

/-- Apply one pose mutator (`none` = its assert failed). -/
def applyPoseOp (sqrt : ℚ → ℚ) (cam : Camera) : PoseOp → Option Camera
  | .setRot r => set_rotation_mat sqrt cam r true
  | .setCenter c => set_camera_center_after_rotation cam c true
  | .setTrans t => set_camera_translation_vector_after_rotation cam t true

/-- Apply a sequence of pose mutators, stopping at the first failed assert. -/
def applyPoseOps (sqrt : ℚ → ℚ) (cam : Camera) : List PoseOp → Option Camera
  | [] => some cam
  | op :: ops => (applyPoseOp sqrt cam op).bind (fun s => applyPoseOps sqrt s ops)

/-- The derived pose relation `t = -R C`, exactly. -/
def poseRelationExact (cam : Camera) : Prop :=
  cam._translation_vec = vec3Neg (mat3MulVec cam._rotation_mat cam._center)

instance (cam : Camera) : Decidable (poseRelationExact cam) := by
  unfold poseRelationExact
  infer_instance

/-- The derived pose relation `t = -R C` componentwise within the
`np.isclose` tolerance (the reading "holds within tolerance" of the spec). -/
def poseRelationClose (cam : Camera) : Bool :=
  npIsClose cam._translation_vec.x (vec3Neg (mat3MulVec cam._rotation_mat cam._center)).x &&
  npIsClose cam._translation_vec.y (vec3Neg (mat3MulVec cam._rotation_mat cam._center)).y &&
  npIsClose cam._translation_vec.z (vec3Neg (mat3MulVec cam._rotation_mat cam._center)).z

/-- Splitting a pose-mutator sequence. -/
theorem applyPoseOps_append (sqrt : ℚ → ℚ) (cam : Camera) (xs ys : List PoseOp) :
    applyPoseOps sqrt cam (xs ++ ys) =
      (applyPoseOps sqrt cam xs).bind (fun s => applyPoseOps sqrt s ys) := by
  induction xs generalizing cam with
  | nil => simp [applyPoseOps]
  | cons op ops ih =>
      simp only [List.cons_append, applyPoseOps]
      cases applyPoseOp sqrt cam op with
      | none => simp
      | some s => simp [ih]

/-- Rotation by 90 degrees about the z axis (determinant 1). -/
def mRz90 : Mat3 := ⟨0, -1, 0, 1, 0, 0, 0, 0, 1⟩

/-- The identity matrix passes `is_rotation_mat_valid`. -/
theorem is_rotation_mat_valid_id : is_rotation_mat_valid mat3Id = true := by
  norm_num [is_rotation_mat_valid, det3, mat3Id, npIsClose]

/-- The z-rotation `mRz90` passes `is_rotation_mat_valid`. -/
theorem is_rotation_mat_valid_rz90 : is_rotation_mat_valid mRz90 = true := by
  norm_num [is_rotation_mat_valid, det3, mRz90, npIsClose]

/-- The mutator sequence refuting claim C1: install the identity rotation,
set the center (which derives `t = -C`), then install a different rotation. -/
def c1ops : List PoseOp :=
  [PoseOp.setRot mat3Id, PoseOp.setCenter ⟨1, 0, 0⟩, PoseOp.setRot mRz90]

/-- C1 counterexample: a sequence of the three mutators, each passing its
own assert, after which `translation_vec = -(rotation_mat . center)` fails
both exactly and within the `np.isclose` tolerance: `set_rotation_mat` does
not re-derive the center/translation relation. -/
theorem thm_c1_counterexample :
    (applyPoseOps Rat.sqrt initCamera c1ops).map poseRelationClose = some false ∧
    (applyPoseOps Rat.sqrt initCamera c1ops).map
      (fun s => decide (poseRelationExact s)) = some false := by
  have h1 : applyPoseOps Rat.sqrt initCamera c1ops =
      some { initCamera with
              _center := ⟨1, 0, 0⟩,
              _translation_vec := ⟨-1, 0, 0⟩,
              _rotation_mat := mRz90,
              _quaternion := rotation_matrix_to_quaternion Rat.sqrt mRz90 } := by
    simp [c1ops, applyPoseOps, applyPoseOp, set_rotation_mat,
      set_camera_center_after_rotation, is_rotation_mat_valid_id,
      is_rotation_mat_valid_rz90]
    norm_num [vec3Neg, mat3MulVec, mat3Id, Vec3.mk.injEq]
  rw [h1]
  constructor
  · norm_num [poseRelationClose, npIsClose, vec3Neg, mat3MulVec, mRz90]
  · norm_num [poseRelationExact, vec3Neg, mat3MulVec, mRz90, Vec3.mk.injEq]

/-- C1 (amended): `set_camera_center_after_rotation` always re-establishes
`t = -R C`; `set_camera_translation_vector_after_rotation` re-establishes it
provided the rotation matrix in force is orthogonal (`R Rᵀ = I` — the
validity assert only checks `|det| ≈ 1`, so this is not implied);
`set_rotation_mat` leaves center and translation unchanged and does not
re-derive the relation. -/
theorem thm_c1 :
    (∀ (sqrt : ℚ → ℚ) (cam : Camera) (ops : List PoseOp) (c : Vec3) (s : Camera),
        applyPoseOps sqrt cam (ops ++ [PoseOp.setCenter c]) = some s →
        poseRelationExact s) ∧
    (∀ (sqrt : ℚ → ℚ) (cam : Camera) (ops : List PoseOp) (t : Vec3) (s : Camera),
        applyPoseOps sqrt cam (ops ++ [PoseOp.setTrans t]) = some s →
        mat3Mul s._rotation_mat (mat3Transpose s._rotation_mat) = mat3Id →
        poseRelationExact s) ∧
    (∀ (sqrt : ℚ → ℚ) (cam : Camera) (r : Mat3) (s : Camera),
        applyPoseOp sqrt cam (PoseOp.setRot r) = some s →
        s._center = cam._center ∧ s._translation_vec = cam._translation_vec) := by
  refine ⟨?_, ?_, ?_⟩
  · intro sqrt cam ops c s h
    rw [applyPoseOps_append] at h
    rcases hmid : applyPoseOps sqrt cam ops with _ | mid
    · rw [hmid] at h; simp at h
    · rw [hmid] at h
      simp only [Option.some_bind, applyPoseOps, applyPoseOp] at h
      rcases hstep : set_camera_center_after_rotation mid c true with _ | s2
      · rw [hstep] at h; simp at h
      · rw [hstep] at h
        simp only [Option.some_bind, Option.some.injEq] at h
        subst h
        unfold set_camera_center_after_rotation at hstep
        split at hstep
        · exact absurd hstep (by simp)
        · cases Option.some.inj hstep
          rfl
  · intro sqrt cam ops t s h horth
    rw [applyPoseOps_append] at h
    rcases hmid : applyPoseOps sqrt cam ops with _ | mid
    · rw [hmid] at h; simp at h
    · rw [hmid] at h
      simp only [Option.some_bind, applyPoseOps, applyPoseOp] at h
      rcases hstep : set_camera_translation_vector_after_rotation mid t true with _ | s2
      · rw [hstep] at h; simp at h
      · rw [hstep] at h
        simp only [Option.some_bind, Option.some.injEq] at h
        subst h
        unfold set_camera_translation_vector_after_rotation at hstep
        split at hstep
        · exact absurd hstep (by simp)
        · cases Option.some.inj hstep
          simp only [mat3Mul, mat3Transpose, mat3Id, Mat3.mk.injEq] at horth
          obtain ⟨h00, h01, h02, h10, h11, h12, h20, h21, h22⟩ := horth
          show t = _
          rcases t with ⟨tx, ty, tz⟩
          simp only [poseRelationExact, vec3Neg, mat3MulVec, mat3Transpose,
            Vec3.mk.injEq]
          refine ⟨?_, ?_, ?_⟩
          · linear_combination -(tx * h00) - ty * h01 - tz * h02
          · linear_combination -(tx * h10) - ty * h11 - tz * h12
          · linear_combination -(tx * h20) - ty * h21 - tz * h22
  · intro sqrt cam r s h
    simp only [applyPoseOp] at h
    unfold set_rotation_mat at h
    split at h
    · exact absurd h (by simp)
    · cases Option.some.inj h
      exact ⟨rfl, rfl⟩

/-- A camera whose rotation matrix is the identity (so the pose mutators'
asserts pass). -/
def camIdRot : Camera := { initCamera with _rotation_mat := mat3Id }

/-- State after `set_camera_center_after_rotation(camIdRot, (1,2,3))`. -/
def c1wCenter : Camera :=
  { camIdRot with _center := ⟨1, 2, 3⟩, _translation_vec := ⟨-1, -2, -3⟩ }

/-- State after `set_camera_translation_vector_after_rotation(camIdRot, (4,5,6))`. -/
def c1wTrans : Camera :=
  { camIdRot with _translation_vec := ⟨4, 5, 6⟩, _center := ⟨-4, -5, -6⟩ }

/-- State after `set_rotation_mat(camIdRot, mRz90)`. -/
def c1wRot : Camera :=
  { camIdRot with
      _rotation_mat := mRz90,
      _quaternion := rotation_matrix_to_quaternion Rat.sqrt mRz90 }

/-- C1 witness: the three parts of `thm_c1` at concrete states. -/
theorem thm_c1_witness :
    applyPoseOps Rat.sqrt camIdRot [PoseOp.setCenter ⟨1, 2, 3⟩] = some c1wCenter ∧
    poseRelationExact c1wCenter ∧
    applyPoseOps Rat.sqrt camIdRot [PoseOp.setTrans ⟨4, 5, 6⟩] = some c1wTrans ∧
    mat3Mul c1wTrans._rotation_mat (mat3Transpose c1wTrans._rotation_mat) = mat3Id ∧
    poseRelationExact c1wTrans ∧
    applyPoseOp Rat.sqrt camIdRot (PoseOp.setRot mRz90) = some c1wRot ∧
    c1wRot._center = camIdRot._center ∧
    c1wRot._translation_vec = camIdRot._translation_vec := by
  have hc : applyPoseOps Rat.sqrt camIdRot [PoseOp.setCenter ⟨1, 2, 3⟩] =
      some c1wCenter := by
    simp [applyPoseOps, applyPoseOp, set_camera_center_after_rotation,
      camIdRot, is_rotation_mat_valid_id, c1wCenter]
    norm_num [vec3Neg, mat3MulVec, mat3Id, Vec3.mk.injEq]
  have ht : applyPoseOps Rat.sqrt camIdRot [PoseOp.setTrans ⟨4, 5, 6⟩] =
      some c1wTrans := by
    simp [applyPoseOps, applyPoseOp, set_camera_translation_vector_after_rotation,
      camIdRot, is_rotation_mat_valid_id, c1wTrans]
    norm_num [vec3Neg, mat3MulVec, mat3Transpose, mat3Id, Vec3.mk.injEq]
  have ho : mat3Mul c1wTrans._rotation_mat (mat3Transpose c1wTrans._rotation_mat) =
      mat3Id := by
    norm_num [c1wTrans, camIdRot, mat3Mul, mat3Transpose, mat3Id, Mat3.mk.injEq]
  have hr : applyPoseOp Rat.sqrt camIdRot (PoseOp.setRot mRz90) = some c1wRot := by
    simp [applyPoseOp, set_rotation_mat, is_rotation_mat_valid_rz90, camIdRot, c1wRot]
  exact ⟨hc, thm_c1.1 Rat.sqrt camIdRot [] ⟨1, 2, 3⟩ c1wCenter hc,
    ht, ho, thm_c1.2.1 Rat.sqrt camIdRot [] ⟨4, 5, 6⟩ c1wTrans ht ho,
    hr, (thm_c1.2.2 Rat.sqrt camIdRot mRz90 c1wRot hr).1,
    (thm_c1.2.2 Rat.sqrt camIdRot mRz90 c1wRot hr).2⟩

/-- C8: `set_quaternion` and `set_rotation_mat` change only the quaternion
and rotation-matrix fields; in particular center and translation_vec are
left unchanged, so a rotation installed after them does not refresh the
derived relation between them. -/
theorem thm_c8 (sqrt : ℚ → ℚ) (cam : Camera) (q : Vec4) (r : Mat3) (s : Camera)
    (h : set_rotation_mat sqrt cam r true = some s) :
    ((set_quaternion sqrt cam q)._center = cam._center ∧
     (set_quaternion sqrt cam q)._translation_vec = cam._translation_vec ∧
     (set_quaternion sqrt cam q).normal = cam.normal ∧
     (set_quaternion sqrt cam q).color = cam.color ∧
     (set_quaternion sqrt cam q)._calibration_mat = cam._calibration_mat ∧
     (set_quaternion sqrt cam q)._radial_distortion = cam._radial_distortion ∧
     (set_quaternion sqrt cam q).image_fp_type = cam.image_fp_type ∧
     (set_quaternion sqrt cam q).image_dp = cam.image_dp ∧
     (set_quaternion sqrt cam q)._relative_fp = cam._relative_fp ∧
     (set_quaternion sqrt cam q)._absolute_fp = cam._absolute_fp ∧
     (set_quaternion sqrt cam q)._undistorted_relative_fp = cam._undistorted_relative_fp ∧
     (set_quaternion sqrt cam q)._undistorted_absolute_fp = cam._undistorted_absolute_fp ∧
     (set_quaternion sqrt cam q).width = cam.width ∧
     (set_quaternion sqrt cam q).height = cam.height ∧
     (set_quaternion sqrt cam q).panoramic_type = cam.panoramic_type ∧
     (set_quaternion sqrt cam q).depth_map_fp = cam.depth_map_fp ∧
     (set_quaternion sqrt cam q).depth_map_semantic = cam.depth_map_semantic ∧
     (set_quaternion sqrt cam q).id = cam.id ∧
     (set_quaternion sqrt cam q)._quaternion = q) ∧
    (s._center = cam._center ∧
     s._translation_vec = cam._translation_vec ∧
     s.normal = cam.normal ∧
     s.color = cam.color ∧
     s._calibration_mat = cam._calibration_mat ∧
     s._radial_distortion = cam._radial_distortion ∧
     s.image_fp_type = cam.image_fp_type ∧
     s.image_dp = cam.image_dp ∧
     s._relative_fp = cam._relative_fp ∧
     s._absolute_fp = cam._absolute_fp ∧
     s._undistorted_relative_fp = cam._undistorted_relative_fp ∧
     s._undistorted_absolute_fp = cam._undistorted_absolute_fp ∧
     s.width = cam.width ∧
     s.height = cam.height ∧
     s.panoramic_type = cam.panoramic_type ∧
     s.depth_map_fp = cam.depth_map_fp ∧
     s.depth_map_semantic = cam.depth_map_semantic ∧
     s.id = cam.id ∧
     s._rotation_mat = r) := by
  constructor
  · and_intros <;> rfl
  · unfold set_rotation_mat at h
    split at h
    · exact absurd h (by simp)
    · cases Option.some.inj h
      and_intros <;> rfl

/-- State after `set_rotation_mat(camIdRot, mat3Id)`; the recomputed
quaternion is the identity quaternion `(1,0,0,0)`. -/
def c8wRot : Camera :=
  { camIdRot with _rotation_mat := mat3Id, _quaternion := ⟨1, 0, 0, 0⟩ }

/-- C8 witness: `thm_c8` at a concrete camera, quaternion and rotation. -/
theorem thm_c8_witness :
    set_rotation_mat Rat.sqrt camIdRot mat3Id true = some c8wRot ∧
    (set_quaternion Rat.sqrt camIdRot ⟨0, 1, 0, 0⟩)._center = camIdRot._center ∧
    c8wRot._center = camIdRot._center ∧
    c8wRot._translation_vec = camIdRot._translation_vec := by
  have hq : rotation_matrix_to_quaternion Rat.sqrt mat3Id = ⟨1, 0, 0, 0⟩ := by
    simp only [rotation_matrix_to_quaternion]
    norm_num [mat3Id, show (4 : ℚ) = 2 * 2 by norm_num, Rat.sqrt_eq, Vec4.mk.injEq]
  have h : set_rotation_mat Rat.sqrt camIdRot mat3Id true = some c8wRot := by
    simp [set_rotation_mat, is_rotation_mat_valid_id, camIdRot, c8wRot, hq]
  have h2 := thm_c8 Rat.sqrt camIdRot ⟨0, 1, 0, 0⟩ mat3Id c8wRot h
  exact ⟨h, h2.1.1, h2.2.1, h2.2.2.1⟩

/-- Negating a quaternion does not change the produced rotation matrix. -/
theorem quaternion_to_rotation_matrix_neg (sqrt : ℚ → ℚ) (b0 b1 b2 b3 : ℚ) :
    quaternion_to_rotation_matrix sqrt ⟨-b0, -b1, -b2, -b3⟩ =
      quaternion_to_rotation_matrix sqrt ⟨b0, b1, b2, b3⟩ := by
  simp only [quaternion_to_rotation_matrix]
  rw [show -b0 * -b0 + -b1 * -b1 + -b2 * -b2 + -b3 * -b3 =
      b0 * b0 + b1 * b1 + b2 * b2 + b3 * b3 from by ring]
  split_ifs with h
  · simp only [Mat3.mk.injEq]
    and_intros <;> ring
  · rfl

/-- The rotation matrix of a unit quaternion, written out: normalization
divides by `sqrt 1 = 1`. -/
theorem quaternion_to_rotation_matrix_unit (sqrt : ℚ → ℚ)
    (hs : ∀ x : ℚ, sqrt (x * x) = |x|) (a0 a1 a2 a3 : ℚ)
    (hunit : a0 * a0 + a1 * a1 + a2 * a2 + a3 * a3 = 1) :
    quaternion_to_rotation_matrix sqrt ⟨a0, a1, a2, a3⟩ =
      ⟨a0 * a0 + a1 * a1 - a3 * a3 - a2 * a2,
       2 * a1 * a2 - 2 * a3 * a0,
       2 * a2 * a0 + 2 * a3 * a1,
       2 * a1 * a2 + 2 * a0 * a3,
       a2 * a2 + a0 * a0 - a3 * a3 - a1 * a1,
       2 * a3 * a2 - 2 * a1 * a0,
       2 * a1 * a3 - 2 * a2 * a0,
       2 * a2 * a3 + 2 * a0 * a1,
       a3 * a3 + a0 * a0 - a2 * a2 - a1 * a1⟩ := by
  have h1 : sqrt 1 = 1 := by
    have := hs 1
    simpa using this
  simp only [quaternion_to_rotation_matrix, hunit, h1]
  norm_num

/-- C3 (amended): for every rotation matrix arising as the image of a unit
quaternion `p` whose scalar part is positive and clears the `1e-9` branch
threshold (Shepperd branch 1), or is exactly zero (the three 180-degree
branches, one for each dominant diagonal entry), the round trip
`quaternion_to_rotation_matrix (rotation_matrix_to_quaternion R)` reproduces
`R` exactly.  Improper rotation matrices (det close to -1), although accepted
by `is_rotation_mat_valid`, are not reproduced (see the counterexample). -/
theorem thm_c3 (sqrt : ℚ → ℚ) (hs : ∀ x : ℚ, sqrt (x * x) = |x|)
    (p : Vec4) (hunit : p.a0 * p.a0 + p.a1 * p.a1 + p.a2 * p.a2 + p.a3 * p.a3 = 1)
    (hbranch : (0 < p.a0 ∧ 1 / 1000000000 < 4 * (p.a0 * p.a0)) ∨ p.a0 = 0) :
    quaternion_to_rotation_matrix sqrt
        (rotation_matrix_to_quaternion sqrt (quaternion_to_rotation_matrix sqrt p)) =
      quaternion_to_rotation_matrix sqrt p := by
  obtain ⟨a0, a1, a2, a3⟩ := p
  simp only at hunit hbranch
  have hM := quaternion_to_rotation_matrix_unit sqrt hs a0 a1 a2 a3 hunit
  rw [hM]
  have key : rotation_matrix_to_quaternion sqrt
        (⟨a0 * a0 + a1 * a1 - a3 * a3 - a2 * a2,
          2 * a1 * a2 - 2 * a3 * a0,
          2 * a2 * a0 + 2 * a3 * a1,
          2 * a1 * a2 + 2 * a0 * a3,
          a2 * a2 + a0 * a0 - a3 * a3 - a1 * a1,
          2 * a3 * a2 - 2 * a1 * a0,
          2 * a1 * a3 - 2 * a2 * a0,
          2 * a2 * a3 + 2 * a0 * a1,
          a3 * a3 + a0 * a0 - a2 * a2 - a1 * a1⟩ : Mat3) = (⟨a0, a1, a2, a3⟩ : Vec4) ∨
      rotation_matrix_to_quaternion sqrt
        (⟨a0 * a0 + a1 * a1 - a3 * a3 - a2 * a2,
          2 * a1 * a2 - 2 * a3 * a0,
          2 * a2 * a0 + 2 * a3 * a1,
          2 * a1 * a2 + 2 * a0 * a3,
          a2 * a2 + a0 * a0 - a3 * a3 - a1 * a1,
          2 * a3 * a2 - 2 * a1 * a0,
          2 * a1 * a3 - 2 * a2 * a0,
          2 * a2 * a3 + 2 * a0 * a1,
          a3 * a3 + a0 * a0 - a2 * a2 - a1 * a1⟩ : Mat3) =
        (⟨-a0, -a1, -a2, -a3⟩ : Vec4) := by
    rcases hbranch with ⟨ha0, hgt⟩ | ha0
    · left
      simp only [rotation_matrix_to_quaternion]
      rw [if_pos (show (1 : ℚ) / 1000000000 <
          1 + (a0 * a0 + a1 * a1 - a3 * a3 - a2 * a2) +
            (a2 * a2 + a0 * a0 - a3 * a3 - a1 * a1) +
            (a3 * a3 + a0 * a0 - a2 * a2 - a1 * a1) from by linarith)]
      rw [show (1 : ℚ) + (a0 * a0 + a1 * a1 - a3 * a3 - a2 * a2) +
            (a2 * a2 + a0 * a0 - a3 * a3 - a1 * a1) +
            (a3 * a3 + a0 * a0 - a2 * a2 - a1 * a1) = (2 * a0) * (2 * a0) from by
          linear_combination (-1 : ℚ) * hunit]
      rw [hs (2 * a0), abs_of_pos (by linarith : (0 : ℚ) < 2 * a0)]
      have ha0ne : a0 ≠ 0 := ne_of_gt ha0
      simp only [Vec4.mk.injEq]
      and_intros <;> field_simp <;> ring
    · subst ha0
      simp only [rotation_matrix_to_quaternion]
      rw [if_neg (show ¬ ((1 : ℚ) / 1000000000 <
          1 + (0 * 0 + a1 * a1 - a3 * a3 - a2 * a2) +
            (a2 * a2 + 0 * 0 - a3 * a3 - a1 * a1) +
            (a3 * a3 + 0 * 0 - a2 * a2 - a1 * a1)) from by
        intro hcon
        nlinarith [hunit])]
      split_ifs with hc1 hc2
      · obtain ⟨hA, hB⟩ := hc1
        have hA' : a2 * a2 < a1 * a1 := by linarith
        have ha1 : a1 ≠ 0 := by
          intro h0
          rw [h0] at hA'
          nlinarith [mul_self_nonneg a2]
        rw [show (1 : ℚ) + (0 * 0 + a1 * a1 - a3 * a3 - a2 * a2) -
              (a2 * a2 + 0 * 0 - a3 * a3 - a1 * a1) -
              (a3 * a3 + 0 * 0 - a2 * a2 - a1 * a1) = (2 * a1) * (2 * a1) from by
            linear_combination (-1 : ℚ) * hunit]
        rw [hs (2 * a1)]
        rcases lt_or_gt_of_ne ha1 with hneg | hpos
        · right
          rw [abs_of_neg (by linarith : 2 * a1 < 0)]
          simp only [Vec4.mk.injEq]
          and_intros <;> field_simp <;> ring
        · left
          rw [abs_of_pos (by linarith : (0 : ℚ) < 2 * a1)]
          simp only [Vec4.mk.injEq]
          and_intros <;> field_simp <;> ring
      · have hB' : a3 * a3 < a2 * a2 := by linarith
        have ha2 : a2 ≠ 0 := by
          intro h0
          rw [h0] at hB'
          nlinarith [mul_self_nonneg a3]
        rw [show (1 : ℚ) + (a2 * a2 + 0 * 0 - a3 * a3 - a1 * a1) -
              (0 * 0 + a1 * a1 - a3 * a3 - a2 * a2) -
              (a3 * a3 + 0 * 0 - a2 * a2 - a1 * a1) = (2 * a2) * (2 * a2) from by
            linear_combination (-1 : ℚ) * hunit]
        rw [hs (2 * a2)]
        rcases lt_or_gt_of_ne ha2 with hneg | hpos
        · right
          rw [abs_of_neg (by linarith : 2 * a2 < 0)]
          simp only [Vec4.mk.injEq]
          and_intros <;> field_simp <;> ring
        · left
          rw [abs_of_pos (by linarith : (0 : ℚ) < 2 * a2)]
          simp only [Vec4.mk.injEq]
          and_intros <;> field_simp <;> ring
      · have h23 : a2 * a2 ≤ a3 * a3 := by linarith [le_of_not_lt hc2]
        have ha3 : a3 ≠ 0 := by
          intro h0
          rw [h0] at h23
          have ha2 : a2 = 0 := by nlinarith [mul_self_nonneg a2]
          rw [ha2] at hc1 hunit
          rw [h0] at hc1 hunit
          exact hc1 ⟨by nlinarith, by nlinarith⟩
        rw [show (1 : ℚ) + (a3 * a3 + 0 * 0 - a2 * a2 - a1 * a1) -
              (0 * 0 + a1 * a1 - a3 * a3 - a2 * a2) -
              (a2 * a2 + 0 * 0 - a3 * a3 - a1 * a1) = (2 * a3) * (2 * a3) from by
            linear_combination (-1 : ℚ) * hunit]
        rw [hs (2 * a3)]
        rcases lt_or_gt_of_ne ha3 with hneg | hpos
        · right
          rw [abs_of_neg (by linarith : 2 * a3 < 0)]
          simp only [Vec4.mk.injEq]
          and_intros <;> field_simp <;> ring
        · left
          rw [abs_of_pos (by linarith : (0 : ℚ) < 2 * a3)]
          simp only [Vec4.mk.injEq]
          and_intros <;> field_simp <;> ring
  rcases key with k | k
  · rw [k]
    exact hM
  · rw [k, quaternion_to_rotation_matrix_neg]
    exact hM

/-- An improper rotation (a reflection): determinant exactly -1, accepted by
`is_rotation_mat_valid`. -/
def mImproper : Mat3 := ⟨1, 0, 0, 0, 1, 0, 0, 0, -1⟩

/-- For every model of `math.sqrt`, the round trip on the reflection
`mImproper` yields a matrix with a nonnegative bottom-right entry (the
conversion to a quaternion and back can only produce proper rotations), so
it cannot reproduce `m22 = -1`. -/
theorem roundtrip_improper_m22_nonneg (sqrt : ℚ → ℚ) :
    0 ≤ (quaternion_to_rotation_matrix sqrt
        (rotation_matrix_to_quaternion sqrt mImproper)).m22 := by
  have hq : rotation_matrix_to_quaternion sqrt mImproper = ⟨sqrt 2 / 2, 0, 0, 0⟩ := by
    simp only [rotation_matrix_to_quaternion, mImproper]
    norm_num
  rw [hq]
  simp only [quaternion_to_rotation_matrix]
  norm_num
  split_ifs with h
  · exact mul_self_nonneg _
  · norm_num

/-- C3 counterexample: the reflection `diag(1,1,-1)` is accepted by
`is_rotation_mat_valid`, yet the quaternion round trip does not reproduce it
(the bottom-right entry comes back nonnegative instead of -1, an error far
beyond the `1e-9` tolerance). -/
theorem thm_c3_counterexample :
    is_rotation_mat_valid mImproper = true ∧
    quaternion_to_rotation_matrix Rat.sqrt
        (rotation_matrix_to_quaternion Rat.sqrt mImproper) ≠ mImproper ∧
    ¬ |(quaternion_to_rotation_matrix Rat.sqrt
          (rotation_matrix_to_quaternion Rat.sqrt mImproper)).m22
        - mImproper.m22| ≤ 1 / 1000000000 := by
  have h0 := roundtrip_improper_m22_nonneg Rat.sqrt
  refine ⟨by norm_num [is_rotation_mat_valid, det3, mImproper, npIsClose], ?_, ?_⟩
  · intro he
    rw [he] at h0
    norm_num [mImproper] at h0
  · intro hle
    rw [show mImproper.m22 = -1 from rfl] at hle
    rw [abs_of_nonneg (by linarith)] at hle
    linarith

/-- C3 witness: `thm_c3` with `Rat.sqrt` (which satisfies the square-root
specification exactly on squares, `Rat.sqrt_eq`), at the identity quaternion
(branch 1) and at a 180-degree rotation (zero scalar part). -/
theorem thm_c3_witness :
    quaternion_to_rotation_matrix Rat.sqrt
        (rotation_matrix_to_quaternion Rat.sqrt
          (quaternion_to_rotation_matrix Rat.sqrt ⟨1, 0, 0, 0⟩)) =
      quaternion_to_rotation_matrix Rat.sqrt ⟨1, 0, 0, 0⟩ ∧
    quaternion_to_rotation_matrix Rat.sqrt
        (rotation_matrix_to_quaternion Rat.sqrt
          (quaternion_to_rotation_matrix Rat.sqrt ⟨0, 1, 0, 0⟩)) =
      quaternion_to_rotation_matrix Rat.sqrt ⟨0, 1, 0, 0⟩ := by
  constructor
  · exact thm_c3 Rat.sqrt (fun x => Rat.sqrt_eq x) ⟨1, 0, 0, 0⟩ (by norm_num)
      (Or.inl ⟨by norm_num, by norm_num⟩)
  · exact thm_c3 Rat.sqrt (fun x => Rat.sqrt_eq x) ⟨0, 1, 0, 0⟩ (by norm_num)
      (Or.inr rfl)

/-- Model of `Camera.set_depth_map`. -/
def set_depth_map (cam : Camera) (depth_map_ifp : String)
    (depth_map_callback : String → DepthMap) (depth_map_semantic : String) : Camera :=
  { cam with
      depth_map_fp := some depth_map_ifp,
      depth_map_callback := some depth_map_callback,
      depth_map_semantic := some depth_map_semantic }

/-- Model of `Camera.get_depth_map`: `None` (modelled `ok none`) when the file does
not exist; calling `os.path.isfile` on an unset (`None`) path, or an unset
callback, raises `TypeError`. -/
def get_depth_map (isfile : String → Bool) (cam : Camera) :
    Except String (Option DepthMap) :=
  match cam.depth_map_fp with
  | none => .error "TypeError: isfile path is None"
  | some fp =>
      if isfile fp then
        match cam.depth_map_callback with
        | none => .error "TypeError: NoneType object is not callable"
        | some callback => .ok (some (callback fp))
      else .ok none

/-- Model of `depth_map.shape` for a rectangular 2D array; `none` when the rows are
ragged or the array is empty (where `height, width = depth_map.shape` would
raise in Python because the numpy shape is not a pair). -/
def depthMapShape (dm : DepthMap) : Option (ℕ × ℕ) :=
  match dm with
  | [] => none
  | r :: rs =>
      if rs.all (fun row => row.length = r.length) then some (rs.length + 1, r.length)
      else none

/-- Numpy boolean-mask indexing `arr[flags]` for equally long lists. -/
def maskFilter {α : Type} : List α → List Bool → List α
  | a :: as, b :: bs => if b then a :: maskFilter as bs else maskFilter as bs
  | _, _ => []

/-- Helper for `everyKth` carrying the running index. -/
def everyKthAux {α : Type} (k : ℕ) : List α → ℕ → List α
  | [], _ => []
  | a :: as, c =>
      if c % k = 0 then a :: everyKthAux k as (c + 1) else everyKthAux k as (c + 1)

/-- Numpy slicing `arr[::k]` for `k > 0`: the elements at indices
`0, k, 2k, ...`. -/
def everyKth {α : Type} (k : ℕ) (l : List α) : List α := everyKthAux k l 0

/-- Three-list `zipWith` (for `np.dstack` / columnwise norms). -/
def zipWith3 {α β γ δ : Type} (f : α → β → γ → δ) :
    List α → List β → List γ → List δ
  | a :: as, b :: bs, c :: cs => f a b c :: zipWith3 f as bs cs
  | _, _, _ => []

/-- Model of `Camera.convert_depth_map_to_world_coords`, following the source line by
line: assert the sparsity is positive, fetch the depth map (crashing on the
`None` of a missing file), check its shape against width/height, read the
intrinsics (this asserts `has_focal_length` and the principal point), build
the reversed pixel index lists, negate the focal lengths, build canonical
coordinates from the flattened (never reversed) depth values, drop
nonpositive depths, optionally subsample with step `sparsity` unless it is
exactly 100, scale by the depth values according to the semantic, homogenize
and apply the 4x4 cam-to-world matrix. -/
def convert_depth_map_to_world_coords (sqrt : ℚ → ℚ) (isfile : String → Bool)
    (cam : Camera) (depth_map_display_sparsity : ℕ) : Except String (List Vec3) :=
  if ¬ 0 < depth_map_display_sparsity then
    .error "AssertionError: 0 < depth_map_display_sparsity"
  else
    match get_depth_map isfile cam with
    | .error e => .error e
    | .ok none => .error "AttributeError: NoneType object has no attribute shape"
    | .ok (some depth_map) =>
        match depthMapShape depth_map with
        | none => .error "ValueError: cannot unpack shape"
        | some (height, width) =>
            if cam.height ≠ some height then .error "AssertionError: height"
            else if cam.width ≠ some width then .error "AssertionError: width"
            else
              match get_calibration_mat cam with
              | .error e => .error e
              | .ok k =>
                  let cx := k.m02
                  let cy := k.m12
                  let y_index_list :=
                    ((List.range (height * width)).map
                      (fun i => ((i / width : ℕ) : ℚ))).reverse
                  let x_index_list :=
                    ((List.range (height * width)).map
                      (fun i => ((i % width : ℕ) : ℚ))).reverse
                  let fx := -k.m00
                  let fy := -k.m11
                  let depth_values := depth_map.flatten
                  if ¬ (x_index_list.length = y_index_list.length ∧
                        y_index_list.length = depth_values.length) then
                    .error "AssertionError: index and depth lengths differ"
                  else
                    let x_coords_canonical :=
                      x_index_list.map (fun x => (x + 1 / 2 - cx) / fx)
                    let y_coords_canonical :=
                      y_index_list.map (fun y => (y + 1 / 2 - cy) / fy)
                    let z_coords_canonical :=
                      List.replicate depth_values.length (1 : ℚ)
                    let non_background_flags :=
                      depth_values.map (fun d => decide (0 < d))
                    let xF0 := maskFilter x_coords_canonical non_background_flags
                    let yF0 := maskFilter y_coords_canonical non_background_flags
                    let zF0 := maskFilter z_coords_canonical non_background_flags
                    let dF0 := maskFilter depth_values non_background_flags
                    let xF := if depth_map_display_sparsity ≠ 100 then
                        everyKth depth_map_display_sparsity xF0 else xF0
                    let yF := if depth_map_display_sparsity ≠ 100 then
                        everyKth depth_map_display_sparsity yF0 else yF0
                    let zF := if depth_map_display_sparsity ≠ 100 then
                        everyKth depth_map_display_sparsity zF0 else zF0
                    let dF := if depth_map_display_sparsity ≠ 100 then
                        everyKth depth_map_display_sparsity dF0 else dF0
                    let scaled : Except String (List ℚ × List ℚ × List ℚ) :=
                      if cam.depth_map_semantic = some DEPTH_MAP_WRT_CANONICAL_VECTORS then
                        .ok (List.zipWith (fun a b => a * b) xF dF,
                             List.zipWith (fun a b => a * b) yF dF,
                             List.zipWith (fun a b => a * b) zF dF)
                      else if cam.depth_map_semantic = some DEPTH_MAP_WRT_UNIT_VECTORS then
                        let cannonical_norms :=
                          zipWith3 (fun x y z => sqrt (x * x + y * y + z * z)) xF yF zF
                        let normalized_depth_values :=
                          List.zipWith (fun d n => d / n) dF cannonical_norms
                        .ok (List.zipWith (fun a b => a * b) xF normalized_depth_values,
                             List.zipWith (fun a b => a * b) yF normalized_depth_values,
                             List.zipWith (fun a b => a * b) zF normalized_depth_values)
                      else .error "AssertionError: unknown depth_map_semantic"
                    match scaled with
                    | .error e => .error e
                    | .ok (xS, yS, zS) =>
                        .ok ((zipWith3 (fun x y z => (⟨x, y, z, 1⟩ : Vec4)) xS yS zS).map
                          (fun v => vec4DropLast
                            (mat4MulVec (get_4x4_cam_to_world_mat cam) v)))

/-- Masking two equally indexed lists and zipping equals zipping and then
masking. -/
theorem zipWith_maskFilter {α β γ : Type} (f : α → β → γ) :
    ∀ (fl : List Bool) (as : List α) (bs : List β),
      List.zipWith f (maskFilter as fl) (maskFilter bs fl) =
        maskFilter (List.zipWith f as bs) fl := by
  intro fl
  induction fl with
  | nil => intro as bs; cases as <;> cases bs <;> simp [maskFilter]
  | cons b fl ih =>
      intro as bs
      cases as with
      | nil => simp [maskFilter]
      | cons a as =>
          cases bs with
          | nil => cases b <;> simp [maskFilter]
          | cons b2 bs =>
              cases b <;> simp [maskFilter, ih]

/-- The `zipWith3` version of `zipWith_maskFilter`. -/
theorem zipWith3_maskFilter {α β γ δ : Type} (f : α → β → γ → δ) :
    ∀ (fl : List Bool) (as : List α) (bs : List β) (cs : List γ),
      zipWith3 f (maskFilter as fl) (maskFilter bs fl) (maskFilter cs fl) =
        maskFilter (zipWith3 f as bs cs) fl := by
  intro fl
  induction fl with
  | nil => intro as bs cs; cases as <;> cases bs <;> cases cs <;> simp [maskFilter, zipWith3]
  | cons b fl ih =>
      intro as bs cs
      cases as with
      | nil => simp [maskFilter, zipWith3]
      | cons a as =>
          cases bs with
          | nil => cases b <;> simp [maskFilter, zipWith3]
          | cons b2 bs =>
              cases cs with
              | nil => cases b <;> simp [maskFilter, zipWith3]
              | cons c cs =>
                  cases b <;> simp [maskFilter, zipWith3, ih]

/-- Mapping after masking equals masking after mapping. -/
theorem map_maskFilter {α β : Type} (f : α → β) :
    ∀ (fl : List Bool) (as : List α),
      (maskFilter as fl).map f = maskFilter (as.map f) fl := by
  intro fl
  induction fl with
  | nil => intro as; cases as <;> simp [maskFilter]
  | cons b fl ih =>
      intro as
      cases as with
      | nil => simp [maskFilter]
      | cons a as => cases b <;> simp [maskFilter, ih]

/-- Lemma: `everyKthAux` distributes over `map`. -/
theorem everyKthAux_map {α β : Type} (k : ℕ) (f : α → β) :
    ∀ (l : List α) (c : ℕ),
      everyKthAux k (l.map f) c = (everyKthAux k l c).map f := by
  intro l
  induction l with
  | nil => intro c; simp [everyKthAux]
  | cons a as ih =>
      intro c
      simp only [List.map_cons, everyKthAux]
      split_ifs <;> simp [ih]

/-- Lemma: `everyKth` distributes over `map`. -/
theorem everyKth_map {α β : Type} (k : ℕ) (f : α → β) (l : List α) :
    everyKth k (l.map f) = (everyKth k l).map f :=
  everyKthAux_map k f l 0

/-- Lemma: `everyKthAux` distributes over `zipWith`. -/
theorem everyKthAux_zipWith {α β γ : Type} (k : ℕ) (f : α → β → γ) :
    ∀ (as : List α) (bs : List β) (c : ℕ),
      everyKthAux k (List.zipWith f as bs) c =
        List.zipWith f (everyKthAux k as c) (everyKthAux k bs c) := by
  intro as
  induction as with
  | nil => intro bs c; simp [everyKthAux]
  | cons a as ih =>
      intro bs c
      cases bs with
      | nil => simp [everyKthAux]
      | cons b bs =>
          simp only [List.zipWith_cons_cons, everyKthAux]
          split_ifs <;> simp [ih]

/-- Lemma: `everyKth` distributes over `zipWith`. -/
theorem everyKth_zipWith {α β γ : Type} (k : ℕ) (f : α → β → γ)
    (as : List α) (bs : List β) :
    everyKth k (List.zipWith f as bs) =
      List.zipWith f (everyKth k as) (everyKth k bs) :=
  everyKthAux_zipWith k f as bs 0

/-- Lemma: `everyKthAux` distributes over `zipWith3`. -/
theorem everyKthAux_zipWith3 {α β γ δ : Type} (k : ℕ) (f : α → β → γ → δ) :
    ∀ (as : List α) (bs : List β) (cs : List γ) (c : ℕ),
      everyKthAux k (zipWith3 f as bs cs) c =
        zipWith3 f (everyKthAux k as c) (everyKthAux k bs c) (everyKthAux k cs c) := by
  intro as
  induction as with
  | nil => intro bs cs c; simp [everyKthAux, zipWith3]
  | cons a as ih =>
      intro bs cs c
      cases bs with
      | nil =>
          simp only [zipWith3, everyKthAux]
          split_ifs <;> simp [zipWith3, everyKthAux]
      | cons b bs =>
          cases cs with
          | nil =>
              simp only [zipWith3, everyKthAux]
              split_ifs <;> simp [zipWith3, everyKthAux]
          | cons c2 cs =>
              simp only [zipWith3, everyKthAux]
              split_ifs <;> simp [zipWith3, ih]

/-- Lemma: `everyKth` distributes over `zipWith3`. -/
theorem everyKth_zipWith3 {α β γ δ : Type} (k : ℕ) (f : α → β → γ → δ)
    (as : List α) (bs : List β) (cs : List γ) :
    everyKth k (zipWith3 f as bs cs) =
      zipWith3 f (everyKth k as) (everyKth k bs) (everyKth k cs) :=
  everyKthAux_zipWith3 k f as bs cs 0

/-- A fully configured camera whose depth-map path will not exist on the
modelled filesystem. -/
def camDepthMissing : Camera :=
  { initCamera with
      width := some 1,
      height := some 1,
      _rotation_mat := mat3Id,
      _calibration_mat := ⟨1, 0, 1/2, 0, 1, 1/2, 0, 0, 1⟩,
      depth_map_fp := some "/missing.npy",
      depth_map_callback := some (fun _ => [[1]]),
      depth_map_semantic := some DEPTH_MAP_WRT_CANONICAL_VECTORS }

/-- C5 counterexample: with the depth-map file absent, `get_depth_map`
itself yields "no data" (`None`), but the depth-unprojection operation
`convert_depth_map_to_world_coords` then dereferences `None.shape` and
fails with `AttributeError` instead of returning "no data". -/
theorem thm_c5_counterexample :
    get_depth_map (fun _ => false) camDepthMissing = .ok none ∧
    convert_depth_map_to_world_coords Rat.sqrt (fun _ => false) camDepthMissing 100 =
      .error "AttributeError: NoneType object has no attribute shape" := by
  constructor
  · rfl
  · rfl

/-- C5 (amended): whenever the configured depth-map path is set but absent
from the filesystem, `get_depth_map` returns `None` ("no data", not an
error), and `convert_depth_map_to_world_coords` (called with any positive
sparsity) does not handle that `None` and fails with `AttributeError`. -/
theorem thm_c5 (sqrt : ℚ → ℚ) (isfile : String → Bool) (cam : Camera)
    (fp : String) (k : ℕ) (hfp : cam.depth_map_fp = some fp)
    (hmiss : isfile fp = false) (hk : 0 < k) :
    get_depth_map isfile cam = .ok none ∧
    convert_depth_map_to_world_coords sqrt isfile cam k =
      .error "AttributeError: NoneType object has no attribute shape" := by
  have hgd : get_depth_map isfile cam = .ok none := by
    simp [get_depth_map, hfp, hmiss]
  refine ⟨hgd, ?_⟩
  unfold convert_depth_map_to_world_coords
  rw [if_neg (not_not_intro hk), hgd]

/-- C5 witness: `thm_c5` at the concrete camera and filesystem. -/
theorem thm_c5_witness :
    camDepthMissing.depth_map_fp = some "/missing.npy" ∧
    get_depth_map (fun _ => false) camDepthMissing = .ok none ∧
    convert_depth_map_to_world_coords Rat.sqrt (fun _ => false) camDepthMissing 7 =
      .error "AttributeError: NoneType object has no attribute shape" := by
  have h := thm_c5 Rat.sqrt (fun _ => false) camDepthMissing "/missing.npy" 7
    rfl rfl (by norm_num)
  exact ⟨rfl, h.1, h.2⟩

/-- C6 (amended): `convert_depth_map_to_world_coords` rejects only
nonpositive sparsity values (there is no upper bound: values above 100 are
accepted); sparsity 100 means "no subsampling"; and for every accepted
sparsity `k` other than 100 the output is exactly every `k`-th entry
(indices 0, k, 2k, ...) of the unsubsampled output. -/
theorem thm_c6 :
    (∀ (sqrt : ℚ → ℚ) (isfile : String → Bool) (cam : Camera),
        convert_depth_map_to_world_coords sqrt isfile cam 0 =
          .error "AssertionError: 0 < depth_map_display_sparsity") ∧
    (∀ (sqrt : ℚ → ℚ) (isfile : String → Bool) (cam : Camera) (k : ℕ),
        0 < k → k ≠ 100 →
        convert_depth_map_to_world_coords sqrt isfile cam k =
          (convert_depth_map_to_world_coords sqrt isfile cam 100).map (everyKth k)) := by
  constructor
  · intro sqrt isfile cam
    rfl
  · intro sqrt isfile cam k hk hne
    unfold convert_depth_map_to_world_coords
    rw [if_neg (not_not_intro hk), if_neg (by norm_num)]
    cases hgd : get_depth_map isfile cam with
    | error e => simp [Except.map]
    | ok o =>
        cases o with
        | none => simp [Except.map]
        | some dm =>
            cases hsh : depthMapShape dm with
            | none => simp [hsh, Except.map]
            | some p =>
                obtain ⟨h, w⟩ := p
                by_cases hh : cam.height = some h
                · by_cases hw : cam.width = some w
                  · cases hcal : get_calibration_mat cam with
                    | error e => simp [hsh, hh, hw, hcal, Except.map]
                    | ok kmat =>
                        by_cases hlen : h * w = (List.map List.length dm).sum
                        · by_cases hsem1 : cam.depth_map_semantic =
                            some DEPTH_MAP_WRT_CANONICAL_VECTORS
                          · simp [hsh, hh, hw, hcal, hlen, hsem1, hne, Except.map,
                              everyKth_map, everyKth_zipWith3, everyKth_zipWith]
                          · by_cases hsem2 : cam.depth_map_semantic =
                              some DEPTH_MAP_WRT_UNIT_VECTORS
                            · simp [hsh, hh, hw, hcal, hlen, hsem1, hsem2, hne, Except.map,
                                DEPTH_MAP_WRT_UNIT_VECTORS, DEPTH_MAP_WRT_CANONICAL_VECTORS,
                                everyKth_map, everyKth_zipWith3, everyKth_zipWith]
                            · simp [hsh, hh, hw, hcal, hlen, hsem1, hsem2, hne, Except.map]
                        · simp [hsh, hh, hw, hcal, hlen, Except.map]
                  · simp [hsh, hh, hw, Except.map]
                · simp [hsh, hh, Except.map]

/-- C6 counterexample: the claim restricts sparsity to `(0, 100]`, but the
source only asserts `0 < sparsity`: the call with sparsity 200 (outside the
claimed range) is accepted and unprojects the single valid pixel. -/
theorem thm_c6_counterexample :
    (100 : ℕ) < 200 ∧
    convert_depth_map_to_world_coords Rat.sqrt (fun _ => true) camDepthMissing 200 =
      .ok [⟨0, 0, 1⟩] := by
  refine ⟨by norm_num, ?_⟩
  norm_num [convert_depth_map_to_world_coords, get_depth_map, camDepthMissing,
    initCamera, depthMapShape, get_calibration_mat, has_focal_length,
    is_principal_point_initialized, npIsClose, DEPTH_MAP_WRT_CANONICAL_VECTORS,
    maskFilter, everyKth, everyKthAux, zipWith3, get_4x4_cam_to_world_mat,
    mat4MulVec, vec4DropLast, mat3Id, List.range_succ, Vec3.mk.injEq, Vec4.mk.injEq]
  rw [if_pos (show (1 : ℚ) / 100000000 < |1 / 2| from by
    rw [abs_of_pos] <;> norm_num)]
  norm_num

/-- C6 witness: `thm_c6` at a concrete camera, sparsity 2 and sparsity 0. -/
theorem thm_c6_witness :
    (0 : ℕ) < 2 ∧ (2 : ℕ) ≠ 100 ∧
    convert_depth_map_to_world_coords Rat.sqrt (fun _ => true) camDepthMissing 2 =
      (convert_depth_map_to_world_coords Rat.sqrt (fun _ => true)
        camDepthMissing 100).map (everyKth 2) ∧
    convert_depth_map_to_world_coords Rat.sqrt (fun _ => true) camDepthMissing 0 =
      .error "AssertionError: 0 < depth_map_display_sparsity" :=
  ⟨by norm_num, by norm_num,
   thm_c6.2 Rat.sqrt (fun _ => true) camDepthMissing 2 (by norm_num) (by norm_num),
   thm_c6.1 Rat.sqrt (fun _ => true) camDepthMissing⟩

/-- Rows of equal length `w0` sum to `count * w0`. -/
theorem sum_map_length_of_all (w0 : ℕ) :
    ∀ rs : List (List ℚ), rs.all (fun row => row.length = w0) = true →
      (rs.map List.length).sum = rs.length * w0 := by
  intro rs
  induction rs with
  | nil => intro _; simp
  | cons r rs ih =>
      intro hall
      simp only [List.all_cons, Bool.and_eq_true, decide_eq_true_eq] at hall
      simp only [List.map_cons, List.sum_cons, List.length_cons, ih hall.2,
        Nat.succ_mul, hall.1]
      omega

/-- A depth map of shape `(h, w)` flattens to `h * w` values. -/
theorem depthMapShape_flatten_length (dm : DepthMap) (h w : ℕ)
    (hs : depthMapShape dm = some (h, w)) : dm.flatten.length = h * w := by
  cases dm with
  | nil => simp [depthMapShape] at hs
  | cons r rs =>
      simp only [depthMapShape] at hs
      split_ifs at hs with hall
      · have hp := Option.some.inj hs
        have hh : rs.length + 1 = h := congrArg Prod.fst hp
        have hw2 : r.length = w := congrArg Prod.snd hp
        rw [List.length_flatten]
        simp only [List.map_cons, List.sum_cons,
          sum_map_length_of_all r.length rs hall]
        subst hh
        subst hw2
        rw [Nat.succ_mul]
        ring

/-- Collapse the three componentwise products over shared index and depth
lists into one `zipWith`. -/
theorem zipWith3_mul_collapse {α : Type} (g : ℚ → ℚ → ℚ → α) (u v : ℕ → ℚ) :
    ∀ (L : List ℕ) (ds : List ℚ),
      zipWith3 g (List.zipWith (fun a b => a * b) (L.map u) ds)
        (List.zipWith (fun a b => a * b) (L.map v) ds)
        (List.zipWith (fun a b => a * b) (ds.map (fun _ => (1 : ℚ))) ds) =
      List.zipWith (fun j d => g (u j * d) (v j * d) (1 * d)) L ds := by
  intro L
  induction L with
  | nil => intro ds; simp [zipWith3]
  | cons j L ih =>
      intro ds
      cases ds with
      | nil => simp [zipWith3]
      | cons d ds =>
          simp only [List.map_cons, List.zipWith_cons_cons, zipWith3, ih]

/-- Masking a zipped list by the positivity flags of the depth list equals
filtering the index range and reading both lists back by position. -/
theorem maskFilter_pos_eq_filter_range {α : Type} (G : ℕ → ℚ → α) :
    ∀ (ds : List ℚ) (L : List ℕ), L.length = ds.length →
      maskFilter (List.zipWith G L ds) (ds.map (fun d => decide (0 < d))) =
        ((List.range ds.length).filter (fun i => decide (0 < ds.getD i 0))).map
          (fun i => G (L.getD i 0) (ds.getD i 0)) := by
  intro ds
  induction ds with
  | nil => intro L _; simp [maskFilter]
  | cons d ds ih =>
      intro L hL
      cases L with
      | nil => simp at hL
      | cons j L =>
          simp only [List.length_cons, Nat.add_right_cancel_iff] at hL
          simp only [List.zipWith_cons_cons, List.map_cons, maskFilter,
            List.length_cons, List.range_succ_eq_map, List.filter_cons,
            List.filter_map, List.map_map]
          by_cases hd : (0 : ℚ) < d
          · simp [hd, Function.comp_def, Nat.succ_eq_add_one,
              List.getElem?_cons_succ, ih L hL]
          · simp [hd, Function.comp_def, Nat.succ_eq_add_one,
              List.getElem?_cons_succ, ih L hL]

/-- Position `i` of the reversed range reads `n - 1 - i`. -/
theorem getD_reverse_range (n i : ℕ) (hi : i < n) :
    (List.range n).reverse.getD i 0 = n - 1 - i := by
  rw [List.getD_eq_getElem?_getD, List.getElem?_reverse (by simpa using hi)]
  simp [List.getElem?_range (by omega : n - 1 - i < n)]

/-- The world point produced for ray pixel index `j` (flat, row-major) and
depth value `d`: the canonical ray with negated focal lengths and the +0.5
pixel-center offset, scaled by `d`, homogenized and moved to world space. -/
def unprojectPoint (cam : Camera) (w : ℕ) (j : ℕ) (d : ℚ) : Vec3 :=
  vec4DropLast (mat4MulVec (get_4x4_cam_to_world_mat cam)
    ⟨(((j % w : ℕ) : ℚ) + 1 / 2 - cam._calibration_mat.m02) /
        -cam._calibration_mat.m00 * d,
     (((j / w : ℕ) : ℚ) + 1 / 2 - cam._calibration_mat.m12) /
        -cam._calibration_mat.m11 * d,
     d, 1⟩)

/-- What the source actually computes under `WRT_CANONICAL_VECTORS` with no
subsampling: the depth of flat pixel `i` is paired with the canonical ray of
the point-mirrored flat pixel `h*w - 1 - i` (the index lists are reversed
but the flattened depth values are not). -/
def mirroredPixelUnprojection (cam : Camera) (dm : DepthMap) (h w : ℕ) : List Vec3 :=
  ((List.range (h * w)).filter (fun i => decide (0 < dm.flatten.getD i 0))).map
    (fun i => unprojectPoint cam w (h * w - 1 - i) (dm.flatten.getD i 0))

/-- Modelled from the spec (claim C2): each surviving pixel's own canonical
ray is scaled by that same pixel's depth value. -/
def specSamePixelUnprojection (cam : Camera) (dm : DepthMap) (h w : ℕ) : List Vec3 :=
  ((List.range (h * w)).filter (fun i => decide (0 < dm.flatten.getD i 0))).map
    (fun i => unprojectPoint cam w i (dm.flatten.getD i 0))

/-- C2 (amended): under `WRT_CANONICAL_VECTORS` with sparsity 100 (no
subsampling), `convert_depth_map_to_world_coords` pairs the depth of flat
pixel `i` with the canonical ray of the mirrored flat pixel `h*w - 1 - i`,
because the x/y index lists are reversed while the flattened depth values
are not; each output point is that mirrored ray scaled by the depth and
moved to world coordinates. -/
theorem thm_c2 (sqrt : ℚ → ℚ) (isfile : String → Bool) (cam : Camera)
    (dm : DepthMap) (h w : ℕ)
    (hgd : get_depth_map isfile cam = .ok (some dm))
    (hsh : depthMapShape dm = some (h, w))
    (hh : cam.height = some h) (hw : cam.width = some w)
    (hcal : (has_focal_length cam && is_principal_point_initialized cam) = true)
    (hsem : cam.depth_map_semantic = some DEPTH_MAP_WRT_CANONICAL_VECTORS) :
    convert_depth_map_to_world_coords sqrt isfile cam 100 =
      .ok (mirroredPixelUnprojection cam dm h w) := by
  have hcal' : get_calibration_mat cam = .ok cam._calibration_mat := by
    simp [get_calibration_mat, hcal]
  have hflat : dm.flatten.length = h * w := depthMapShape_flatten_length dm h w hsh
  have hlen' : h * w = (List.map List.length dm).sum := by
    rw [← List.length_flatten, hflat]
  unfold convert_depth_map_to_world_coords
  simp only [hgd, hsh, hh, hw, hcal', hsem, Nat.lt_irrefl, not_lt_zero']
  norm_num [hflat]
  simp only [← List.map_flatten, ← List.map_reverse]
  rw [show List.replicate (h * w) (1 : ℚ) = dm.flatten.map (fun _ => (1 : ℚ)) from by
    rw [List.map_const', hflat]]
  simp only [zipWith_maskFilter, zipWith3_maskFilter, map_maskFilter,
    zipWith3_mul_collapse, List.map_zipWith]
  rw [maskFilter_pos_eq_filter_range _ dm.flatten ((List.range (h * w)).reverse)
    (by simp [hflat])]
  unfold mirroredPixelUnprojection
  rw [hflat]
  apply List.map_congr_left
  intro i hi
  have hilt : i < h * w := by
    have := List.mem_filter.mp hi
    simpa using List.mem_range.mp this.1
  rw [getD_reverse_range _ _ hilt]
  simp [unprojectPoint, one_mul]

/-- A 1x2 camera with an off-center principal point `(5, 5)` and depth map
`[[1, 2]]`: the two pixels have different depths and different rays, so the
mirrored pairing is observable. -/
def camDepth2 : Camera :=
  { initCamera with
      width := some 2,
      height := some 1,
      _rotation_mat := mat3Id,
      _calibration_mat := ⟨1, 0, 5, 0, 1, 5, 0, 0, 1⟩,
      depth_map_fp := some "/dm2.npy",
      depth_map_callback := some (fun _ => [[1, 2]]),
      depth_map_semantic := some DEPTH_MAP_WRT_CANONICAL_VECTORS }

/-- The intrinsics of `camDepth2` pass `check_calibration_mat`. -/
theorem camDepth2_cal :
    (has_focal_length camDepth2 && is_principal_point_initialized camDepth2) = true := by
  norm_num [has_focal_length, is_principal_point_initialized, npIsClose,
    camDepth2, initCamera]

/-- C2 counterexample: on the 1x2 depth map `[[1, 2]]` with principal point
`(5, 5)`, the source outputs `[(7/2, 9/2, 1), (9, 9, 2)]` — depth 1 paired
with the ray of pixel 1 and depth 2 with the ray of pixel 0 — whereas the
claimed same-pixel pairing predicts `[(9/2, 9/2, 1), (7, 9, 2)]`. -/
theorem thm_c2_counterexample :
    convert_depth_map_to_world_coords Rat.sqrt (fun _ => true) camDepth2 100 =
      .ok [⟨7/2, 9/2, 1⟩, ⟨9, 9, 2⟩] ∧
    specSamePixelUnprojection camDepth2 [[1, 2]] 1 2 =
      [⟨9/2, 9/2, 1⟩, ⟨7, 9, 2⟩] ∧
    convert_depth_map_to_world_coords Rat.sqrt (fun _ => true) camDepth2 100 ≠
      .ok (specSamePixelUnprojection camDepth2 [[1, 2]] 1 2) := by
  have hc : convert_depth_map_to_world_coords Rat.sqrt (fun _ => true) camDepth2 100 =
      .ok [⟨7/2, 9/2, 1⟩, ⟨9, 9, 2⟩] := by
    norm_num [convert_depth_map_to_world_coords, get_depth_map, camDepth2,
      initCamera, depthMapShape, get_calibration_mat, has_focal_length,
      is_principal_point_initialized, npIsClose, DEPTH_MAP_WRT_CANONICAL_VECTORS,
      maskFilter, zipWith3, get_4x4_cam_to_world_mat, mat4MulVec, vec4DropLast,
      mat3Id, List.range_succ, Vec3.mk.injEq, Vec4.mk.injEq]
  have hspec : specSamePixelUnprojection camDepth2 [[1, 2]] 1 2 =
      [⟨9/2, 9/2, 1⟩, ⟨7, 9, 2⟩] := by
    norm_num [specSamePixelUnprojection, unprojectPoint, camDepth2, initCamera,
      get_4x4_cam_to_world_mat, mat4MulVec, vec4DropLast, mat3Id,
      List.range_succ, Vec3.mk.injEq]
  refine ⟨hc, hspec, ?_⟩
  rw [hc, hspec]
  simp only [ne_eq, Except.ok.injEq, List.cons.injEq, Vec3.mk.injEq]
  norm_num

/-- C2 witness: `thm_c2` at the concrete 1x2 camera. -/
theorem thm_c2_witness :
    get_depth_map (fun _ => true) camDepth2 = .ok (some [[1, 2]]) ∧
    depthMapShape [[1, 2]] = some (1, 2) ∧
    camDepth2.depth_map_semantic = some DEPTH_MAP_WRT_CANONICAL_VECTORS ∧
    convert_depth_map_to_world_coords Rat.sqrt (fun _ => true) camDepth2 100 =
      .ok (mirroredPixelUnprojection camDepth2 [[1, 2]] 1 2) :=
  ⟨rfl, rfl, rfl,
   thm_c2 Rat.sqrt (fun _ => true) camDepth2 [[1, 2]] 1 2 rfl rfl rfl rfl
     camDepth2_cal rfl⟩
